import Mathlib

/-!
Verification development for the planetary gear generator.

The source is a single Python module.  Its geometric core is embedded here
over `ℝ`:

* pure functions (`polar`, `rotate_point_2d`, the derived radii) become Lean
  functions of the same names;
* `calculate_involute_angle` and the functions built on it can raise in
  Python (`ZeroDivisionError` from the two divisions, `ValueError` from
  `math.sqrt` on a negative argument or `math.acos` outside `[-1, 1]`), so
  each of them has two embeddings: a total one giving the value semantics on
  non-raising inputs, and an exception-aware one (suffix `E`) returning
  `Option`, where `none` models an uncaught exception;
* the Blender mesh sink (`bmesh`/`bpy`) is outside the geometric core; the
  model of `create_gear_object` keeps exactly the part of its control flow
  that decides whether a mesh is produced (the emptiness check on the
  outline), and represents the mesh handed onward by the vertex list the
  sink would consume.
-/

namespace PlanetaryGear

noncomputable section

/-- `polar(radius, angle)`: polar to cartesian conversion (source line 27). -/
def polar (radius angle : ℝ) : ℝ × ℝ :=
  (radius * Real.cos angle, radius * Real.sin angle)

/-- `calculate_involute_angle(base_radius, radius)` (source line 31), total
model: `0` on `radius ≤ base_radius`, else the involute formula. -/
def calculate_involute_angle (base_radius radius : ℝ) : ℝ :=
  if radius ≤ base_radius then 0
  else Real.sqrt ((radius / base_radius) ^ 2 - 1) - Real.arccos (base_radius / radius)

/-- Exception-aware model of `calculate_involute_angle`.  In the formula
branch Python evaluates `radius / base_radius` (raising on a zero base),
`math.sqrt` (raising on a negative argument), `base_radius / radius`
(raising on zero) and `math.acos` (raising outside `[-1, 1]`); `none`
models any of those exceptions. -/
def calculate_involute_angleE (base_radius radius : ℝ) : Option ℝ :=
  if radius ≤ base_radius then some 0
  else if base_radius = 0 then none
  else if (radius / base_radius) ^ 2 - 1 < 0 then none
  else if radius = 0 then none
  else if base_radius / radius < -1 ∨ 1 < base_radius / radius then none
  else some (Real.sqrt ((radius / base_radius) ^ 2 - 1) - Real.arccos (base_radius / radius))

/-- `get_involute_point(base_radius, side, angle_offset, radius)` (source
line 38), total model: clamps the radius to the base circle, then converts
to cartesian. -/
def get_involute_point (base_radius side angle_offset radius : ℝ) : ℝ × ℝ :=
  let radius := if radius < base_radius then base_radius else radius
  polar radius (side * (calculate_involute_angle base_radius radius + angle_offset))

/-- Exception-aware model of `get_involute_point`. -/
def get_involute_pointE (base_radius side angle_offset radius : ℝ) : Option (ℝ × ℝ) :=
  let radius := if radius < base_radius then base_radius else radius
  (calculate_involute_angleE base_radius radius).map fun ia =>
    polar radius (side * (ia + angle_offset))

/-- `get_tooth_profile_point(fraction, root_radius, base_radius,
outer_radius, angle_offset, side)` (source line 45), total model. -/
def get_tooth_profile_point (fraction root_radius base_radius outer_radius angle_offset side :
    ℝ) : ℝ × ℝ :=
  let start_radius := max base_radius root_radius
  let current_radius := (1 - fraction) * start_radius + fraction * outer_radius
  get_involute_point base_radius side angle_offset current_radius

/-- Exception-aware model of `get_tooth_profile_point`. -/
def get_tooth_profile_pointE (fraction root_radius base_radius outer_radius angle_offset side :
    ℝ) : Option (ℝ × ℝ) :=
  let start_radius := max base_radius root_radius
  let current_radius := (1 - fraction) * start_radius + fraction * outer_radius
  get_involute_pointE base_radius side angle_offset current_radius

/-- `rotate_point_2d(point, angle)` (source line 51). -/
def rotate_point_2d (point : ℝ × ℝ) (angle : ℝ) : ℝ × ℝ :=
  (point.1 * Real.cos angle - point.2 * Real.sin angle,
   point.1 * Real.sin angle + point.2 * Real.cos angle)

/-- `math.radians`: degrees to radians. -/
def radians (deg : ℝ) : ℝ := deg * Real.pi / 180

/-- `num_segments = 5` (source line 78): fixed segment count of the curved
tooth face. -/
def num_segments : ℕ := 5

/-- `pitch_radius = (module * num_teeth) / 2` (source line 61). -/
def pitch_radius (num_teeth : ℤ) (module : ℝ) : ℝ :=
  module * num_teeth / 2

/-- `base_radius = pitch_radius * cos(pressure_angle_rad)` (source line 63). -/
def base_radius (num_teeth : ℤ) (module pressure_angle_deg : ℝ) : ℝ :=
  pitch_radius num_teeth module * Real.cos (radians pressure_angle_deg)

/-- `outer_radius = pitch_radius + module` (source line 66). -/
def outer_radius (num_teeth : ℤ) (module : ℝ) : ℝ :=
  pitch_radius num_teeth module + module

/-- `root_radius = pitch_radius - module * 1.25` (source line 67). -/
def root_radius (num_teeth : ℤ) (module : ℝ) : ℝ :=
  pitch_radius num_teeth module - module * 1.25

/-- `half_tooth_thickness_angle` with its `pitch_radius > 0` guard (source
line 70). -/
def half_tooth_thickness_angle (num_teeth : ℤ) (module : ℝ) : ℝ :=
  if pitch_radius num_teeth module > 0 then
    module * Real.pi / 2 / pitch_radius num_teeth module
  else 0

/-- `involute_angle_offset` (source line 71), total model. -/
def involute_angle_offset (num_teeth : ℤ) (module pressure_angle_deg : ℝ) : ℝ :=
  -calculate_involute_angle (base_radius num_teeth module pressure_angle_deg)
      (pitch_radius num_teeth module)
    - half_tooth_thickness_angle num_teeth module / 2

/-- `root_start_angle` (source line 73), total model. -/
def root_start_angle (num_teeth : ℤ) (module pressure_angle_deg : ℝ) : ℝ :=
  if root_radius num_teeth module < base_radius num_teeth module pressure_angle_deg then
    involute_angle_offset num_teeth module pressure_angle_deg
  else -Real.pi / num_teeth

/-- `root_end_angle` (source line 74), total model. -/
def root_end_angle (num_teeth : ℤ) (module pressure_angle_deg : ℝ) : ℝ :=
  if root_radius num_teeth module < base_radius num_teeth module pressure_angle_deg then
    -involute_angle_offset num_teeth module pressure_angle_deg
  else Real.pi / num_teeth

/-- One side of the curved tooth face: the loop bodies of source lines
79–85, mapped over the given index list (`[0..5]` ascending, `[5..0]`
descending), total model. -/
def tooth_face (num_teeth : ℤ) (module pressure_angle_deg side : ℝ) (idxs : List ℕ) :
    List (ℝ × ℝ) :=
  idxs.map fun (i : ℕ) =>
    get_tooth_profile_point ((i : ℝ) / (num_segments : ℝ)) (root_radius num_teeth module)
      (base_radius num_teeth module pressure_angle_deg) (outer_radius num_teeth module)
      (involute_angle_offset num_teeth module pressure_angle_deg) side

/-- `tooth_points` (source lines 77–87), total model: root start point,
ascending face samples (side `+1`), descending face samples (side `-1`),
root end point. -/
def tooth_points (num_teeth : ℤ) (module pressure_angle_deg : ℝ) : List (ℝ × ℝ) :=
  [polar (root_radius num_teeth module) (root_start_angle num_teeth module pressure_angle_deg)]
    ++ tooth_face num_teeth module pressure_angle_deg 1 (List.range (num_segments + 1))
    ++ tooth_face num_teeth module pressure_angle_deg (-1) (List.range (num_segments + 1)).reverse
    ++ [polar (root_radius num_teeth module) (root_end_angle num_teeth module pressure_angle_deg)]

/-- `tooth_angle = 2 * pi / num_teeth` (source line 91). -/
def tooth_angle (num_teeth : ℤ) : ℝ :=
  2 * Real.pi / num_teeth

/-- The replication loop of source lines 90–95: `num_teeth` rotated copies
of the single tooth profile, in angular order.  `range(num_teeth)` on a
non-positive Python int is empty, hence `(num_teeth).toNat`. -/
def all_points (num_teeth : ℤ) (module pressure_angle_deg : ℝ) : List (ℝ × ℝ) :=
  (List.range num_teeth.toNat).flatMap fun i =>
    (tooth_points num_teeth module pressure_angle_deg).map fun p =>
      rotate_point_2d p ((i : ℝ) * tooth_angle num_teeth)

/-- Source lines 100–101: `if all_points: all_points.append(all_points[0])`. -/
def closeLoop {α : Type} : List α → List α
  | [] => []
  | a :: t => a :: (t ++ [a])

/-- `build_gear_verts(num_teeth, scale, is_internal, pressure_angle_deg)`
(source lines 57–103), total model. -/
def build_gear_verts (num_teeth : ℤ) (scale : ℝ) (is_internal : Bool)
    (pressure_angle_deg : ℝ) : List (ℝ × ℝ) :=
  closeLoop
    (if is_internal then (all_points num_teeth scale pressure_angle_deg).reverse
     else all_points num_teeth scale pressure_angle_deg)

/-- Monadic map over `Option`, modelling a Python loop that appends one
computed element per iteration and aborts the whole call on the first
exception. -/
def mapME {α β : Type} (f : α → Option β) : List α → Option (List β)
  | [] => some []
  | a :: t => (f a).bind fun b => (mapME f t).map fun r => b :: r

/-- Exception-aware model of `tooth_points` (source lines 71–87).  The
offset is computed first (line 71); `root_start_angle`/`root_end_angle`
divide by `num_teeth` in their else branch (lines 73–74), raising when
`num_teeth = 0`; then the two sample loops run. -/
def tooth_pointsE (num_teeth : ℤ) (module pressure_angle_deg : ℝ) : Option (List (ℝ × ℝ)) :=
  (calculate_involute_angleE (base_radius num_teeth module pressure_angle_deg)
      (pitch_radius num_teeth module)).bind fun a =>
    let iao := -a - half_tooth_thickness_angle num_teeth module / 2
    (if root_radius num_teeth module < base_radius num_teeth module pressure_angle_deg then
        some iao
      else if num_teeth = 0 then none else some (-Real.pi / num_teeth)).bind fun rsa =>
    (if root_radius num_teeth module < base_radius num_teeth module pressure_angle_deg then
        some (-iao)
      else if num_teeth = 0 then none else some (Real.pi / num_teeth)).bind fun rea =>
    (mapME (fun (i : ℕ) =>
        get_tooth_profile_pointE ((i : ℝ) / (num_segments : ℝ)) (root_radius num_teeth module)
          (base_radius num_teeth module pressure_angle_deg) (outer_radius num_teeth module)
          iao 1) (List.range (num_segments + 1))).bind fun asc =>
    (mapME (fun (i : ℕ) =>
        get_tooth_profile_pointE ((i : ℝ) / (num_segments : ℝ)) (root_radius num_teeth module)
          (base_radius num_teeth module pressure_angle_deg) (outer_radius num_teeth module)
          iao (-1)) (List.range (num_segments + 1)).reverse).map fun desc =>
    [polar (root_radius num_teeth module) rsa] ++ asc ++ desc
      ++ [polar (root_radius num_teeth module) rea]

/-- Exception-aware model of `build_gear_verts` (source lines 57–103).
`tooth_angle = 2 * pi / num_teeth` (line 91) raises on `num_teeth = 0`. -/
def build_gear_vertsE (num_teeth : ℤ) (scale : ℝ) (is_internal : Bool)
    (pressure_angle_deg : ℝ) : Option (List (ℝ × ℝ)) :=
  (tooth_pointsE num_teeth scale pressure_angle_deg).bind fun tp =>
    if num_teeth = 0 then none
    else
      let ap := (List.range num_teeth.toNat).flatMap fun i =>
        tp.map fun p => rotate_point_2d p ((i : ℝ) * tooth_angle num_teeth)
      some (closeLoop (if is_internal then ap.reverse else ap))

/-- Model of `create_gear_object` (source lines 105–110): build the outline,
return no mesh (`some none`) when it is empty, otherwise hand the vertex
list to the external mesh sink (`some (some verts)`).  The outer `none`
models an exception escaping from `build_gear_verts`, which is called
outside the function's `try` block. -/
def create_gear_objectE (num_teeth : ℤ) (scale : ℝ) (is_internal : Bool)
    (pressure_angle_deg : ℝ) : Option (Option (List (ℝ × ℝ))) :=
  (build_gear_vertsE num_teeth scale is_internal pressure_angle_deg).bind fun verts =>
    if verts.isEmpty then some none else some (some verts)

/-- `ring_teeth = sun_teeth + 2 * planet_teeth` (source line 166). -/
def ring_teeth (sun_teeth planet_teeth : ℤ) : ℤ :=
  sun_teeth + 2 * planet_teeth

/-- `effective_module_for_ring` with its `ring_teeth > 0` guard (source
line 176). -/
def effective_module_for_ring (module clearance : ℝ) (ring : ℤ) : ℝ :=
  if ring > 0 then module + 4 * clearance / ring else module

/-- A request to build one gear: tooth count, module and the internal flag
passed to `create_gear_object`. -/
structure GearRequest where
  num_teeth : ℤ
  module : ℝ
  is_internal : Bool

/-- The sun gear build request (source line 169). -/
def sun_request (sun_teeth : ℤ) (module : ℝ) : GearRequest :=
  ⟨sun_teeth, module, false⟩

/-- The ring gear build request (source lines 176–177). -/
def ring_request (sun_teeth planet_teeth : ℤ) (module clearance : ℝ) : GearRequest :=
  ⟨ring_teeth sun_teeth planet_teeth,
    effective_module_for_ring module clearance (ring_teeth sun_teeth planet_teeth), true⟩

/-- The planet gear template build request (source line 182). -/
def planet_request (planet_teeth : ℤ) (module : ℝ) : GearRequest :=
  ⟨planet_teeth, module, false⟩

/-- `orbit_radius = ((sun_teeth + planet_teeth) * module) / 2.0 + clearance`
(source line 184). -/
def orbit_radius (sun_teeth planet_teeth : ℤ) (module clearance : ℝ) : ℝ :=
  ((sun_teeth : ℝ) + planet_teeth) * module / 2 + clearance

/-- `rotation_ratio` with its `planet_teeth > 0` guard (source line 185);
named with a `_val` suffix here. -/
def rotation_ratio_val (sun_teeth planet_teeth : ℤ) : ℝ :=
  if planet_teeth > 0 then 1 + (sun_teeth : ℝ) / planet_teeth else 1

/-- `angle = 2 * pi * i / num_planets` (source line 188). -/
def planet_angle (num_planets : ℤ) (i : ℕ) : ℝ :=
  2 * Real.pi * i / num_planets

/-- `planet_gear.location` (source line 190). -/
def planet_location (sun_teeth planet_teeth num_planets : ℤ) (module clearance : ℝ)
    (i : ℕ) : ℝ × ℝ × ℝ :=
  (orbit_radius sun_teeth planet_teeth module clearance *
      Real.cos (planet_angle num_planets i),
   orbit_radius sun_teeth planet_teeth module clearance *
      Real.sin (planet_angle num_planets i),
   0)

/-- `planet_gear.rotation_euler.z = pi - angle * rotation_ratio` (source
line 192). -/
def planet_rotation (sun_teeth planet_teeth num_planets : ℤ) (i : ℕ) : ℝ :=
  Real.pi - planet_angle num_planets i * rotation_ratio_val sun_teeth planet_teeth

/-- Cross product of two points, the shoelace summand. -/
def cross2 (p q : ℝ × ℝ) : ℝ :=
  p.1 * q.2 - q.1 * p.2

/-- Sum of cross products along consecutive pairs of a vertex path. -/
def shoelaceSum : List (ℝ × ℝ) → ℝ
  | [] => 0
  | [_] => 0
  | p :: q :: t => cross2 p q + shoelaceSum (q :: t)

/-- Signed polygon area of a vertex path (shoelace formula). -/
def signedArea (l : List (ℝ × ℝ)) : ℝ :=
  shoelaceSum l / 2

end

/-! ### Supporting lemmas -/

/-- On a strictly positive base radius no exception can occur in
`calculate_involute_angle`: the exception-aware model agrees with the total
model. -/
theorem calculate_involute_angleE_eq {b r : ℝ} (hb : 0 < b) :
    calculate_involute_angleE b r = some (calculate_involute_angle b r) := by
  by_cases hr : r ≤ b
  · simp [calculate_involute_angleE, calculate_involute_angle, hr]
  · push_neg at hr
    have hr0 : 0 < r := hb.trans hr
    have h1 : 1 < r / b := (one_lt_div hb).mpr hr
    have h2 : ¬ ((r / b) ^ 2 - 1 < 0) := by nlinarith
    have h3 : b / r < 1 := (div_lt_one hr0).mpr hr
    have h4 : 0 < b / r := div_pos hb hr0
    have h5 : ¬ (b / r < -1 ∨ 1 < b / r) := by
      push_neg
      constructor <;> linarith
    rw [calculate_involute_angleE, calculate_involute_angle,
      if_neg (not_le.mpr hr), if_neg hb.ne', if_neg h2, if_neg hr0.ne', if_neg h5,
      if_neg (not_le.mpr hr)]

/-- On a strictly positive base radius `get_involute_point` cannot raise. -/
theorem get_involute_pointE_eq {b s o r : ℝ} (hb : 0 < b) :
    get_involute_pointE b s o r = some (get_involute_point b s o r) := by
  simp only [get_involute_pointE, get_involute_point, calculate_involute_angleE_eq hb,
    Option.map_some']

/-- On a strictly positive base radius `get_tooth_profile_point` cannot
raise. -/
theorem get_tooth_profile_pointE_eq {f rr b o a s : ℝ} (hb : 0 < b) :
    get_tooth_profile_pointE f rr b o a s = some (get_tooth_profile_point f rr b o a s) := by
  simp only [get_tooth_profile_pointE, get_tooth_profile_point, get_involute_pointE_eq hb]

theorem mapME_eq_some_map {α β : Type} (f : α → Option β) (g : α → β) :
    ∀ l : List α, (∀ a ∈ l, f a = some (g a)) → mapME f l = some (l.map g) := by
  intro l
  induction l with
  | nil => intro _; rfl
  | cons a t ih =>
    intro h
    simp only [mapME, h a (by simp), ih (fun x hx => h x (by simp [hx])), Option.some_bind,
      Option.map_some', List.map_cons]

theorem mapME_eq_none {α β : Type} (f : α → Option β) {a : α} :
    ∀ {l : List α}, a ∈ l → f a = none → mapME f l = none := by
  intro l
  induction l with
  | nil => intro h; cases h
  | cons b t ih =>
    intro hmem hfa
    rcases List.mem_cons.mp hmem with rfl | h
    · simp [mapME, hfa]
    · cases hfb : f b <;> simp [mapME, hfb, ih h hfa]

theorem closeLoop_eq_append {α : Type} (l : List α) :
    closeLoop l = l ++ l.head?.toList := by
  cases l <;> rfl

theorem closeLoop_head?_eq_getLast? {α : Type} (l : List α) (h : l ≠ []) :
    (closeLoop l).head? = (closeLoop l).getLast? := by
  cases l with
  | nil => exact absurd rfl h
  | cons a t =>
    show (a :: (t ++ [a])).head? = (a :: (t ++ [a])).getLast?
    rw [List.head?_cons, show a :: (t ++ [a]) = (a :: t) ++ [a] by simp,
      List.getLast?_concat]

theorem closeLoop_length {α : Type} (l : List α) (h : l ≠ []) :
    (closeLoop l).length = l.length + 1 := by
  cases l with
  | nil => exact absurd rfl h
  | cons a t => simp [closeLoop]

theorem length_flatMap_const {α β : Type} (f : α → List β) (m : ℕ) :
    ∀ l : List α, (∀ a ∈ l, (f a).length = m) → (l.flatMap f).length = l.length * m := by
  intro l
  induction l with
  | nil => intro _; simp
  | cons a t ih =>
    intro h
    simp only [List.flatMap_cons, List.length_append, h a (by simp),
      ih (fun x hx => h x (by simp [hx])), List.length_cons]
    ring

theorem tooth_points_length (n : ℤ) (m d : ℝ) : (tooth_points n m d).length = 14 := by
  unfold tooth_points tooth_face
  simp only [List.length_append, List.length_map, List.length_reverse, List.length_range,
    List.length_singleton, num_segments]

theorem all_points_length (n : ℤ) (m d : ℝ) :
    (all_points n m d).length = n.toNat * 14 := by
  unfold all_points
  rw [length_flatMap_const _ 14 _ (fun a _ => by
    rw [List.length_map, tooth_points_length]), List.length_range]

theorem all_points_ne_nil (n : ℤ) (hn : 1 ≤ n) (m d : ℝ) :
    all_points n m d ≠ [] := by
  have h := all_points_length n m d
  intro h0
  rw [h0] at h
  simp only [List.length_nil] at h
  omega

theorem build_gear_verts_length (n : ℤ) (hn : 1 ≤ n) (s : ℝ) (b : Bool) (d : ℝ) :
    (build_gear_verts n s b d).length = n.toNat * 14 + 1 := by
  unfold build_gear_verts
  cases b with
  | false =>
    rw [if_neg (by simp), closeLoop_length _ (all_points_ne_nil n hn s d),
      all_points_length]
  | true =>
    rw [if_pos rfl, closeLoop_length _ (by
        simpa using all_points_ne_nil n hn s d),
      List.length_reverse, all_points_length]

theorem cross2_antisymm (p q : ℝ × ℝ) : cross2 p q = -cross2 q p := by
  unfold cross2
  ring

theorem shoelaceSum_concat :
    ∀ (l : List (ℝ × ℝ)) (x : ℝ × ℝ),
      shoelaceSum (l ++ [x]) =
        shoelaceSum l + (l.getLast?).elim 0 (fun q => cross2 q x) := by
  intro l
  induction l with
  | nil => intro x; simp [shoelaceSum]
  | cons a t ih =>
    intro x
    cases t with
    | nil => simp [shoelaceSum]
    | cons b u =>
      have : ((a :: b :: u) ++ [x]) = a :: ((b :: u) ++ [x]) := by simp
      rw [this]
      show cross2 a b + shoelaceSum ((b :: u) ++ [x]) = _
      rw [ih x, List.getLast?_cons_cons]
      show _ = cross2 a b + shoelaceSum (b :: u) + _
      ring

theorem shoelaceSum_reverse :
    ∀ l : List (ℝ × ℝ), shoelaceSum l.reverse = -shoelaceSum l := by
  intro l
  induction l with
  | nil => simp [shoelaceSum]
  | cons a t ih =>
    cases t with
    | nil => simp [shoelaceSum]
    | cons b u =>
      rw [show (a :: b :: u).reverse = (b :: u).reverse ++ [a] by simp,
        shoelaceSum_concat, ih, List.getLast?_reverse, List.head?_cons,
        Option.elim_some, cross2_antisymm b a]
      show -shoelaceSum (b :: u) + -cross2 a b = -(cross2 a b + shoelaceSum (b :: u))
      ring

theorem shoelaceSum_closeLoop (l : List (ℝ × ℝ)) :
    shoelaceSum (closeLoop l) =
      shoelaceSum l + (l.getLast?).elim 0 (fun q => (l.head?).elim 0 (fun p => cross2 q p)) := by
  cases l with
  | nil => simp [closeLoop, shoelaceSum]
  | cons a t =>
    rw [show closeLoop (a :: t) = (a :: t) ++ [a] by simp [closeLoop], shoelaceSum_concat,
      List.head?_cons]
    rfl

theorem shoelaceSum_closeLoop_reverse (l : List (ℝ × ℝ)) :
    shoelaceSum (closeLoop l.reverse) = -shoelaceSum (closeLoop l) := by
  rw [shoelaceSum_closeLoop, shoelaceSum_closeLoop, shoelaceSum_reverse,
    List.getLast?_reverse, List.head?_reverse]
  cases hh : l.head? with
  | none =>
    cases hg : l.getLast? with
    | none => simp
    | some q => simp
  | some p =>
    cases hg : l.getLast? with
    | none => simp
    | some q =>
      simp only [Option.elim_some]
      rw [cross2_antisymm p q]
      ring

/-! ### Claim theorems -/

/-- **C1.** For every `base_radius > 0`, `calculate_involute_angle` raises no
exception, returns `0` whenever `radius ≤ base_radius`, and otherwise
returns `sqrt((radius/base_radius)^2 - 1) - acos(base_radius/radius)`. -/
theorem involute_angle_spec (b r : ℝ) (hb : 0 < b) :
    calculate_involute_angleE b r = some (calculate_involute_angle b r) ∧
    (r ≤ b → calculate_involute_angle b r = 0) ∧
    (b < r → calculate_involute_angle b r =
      Real.sqrt ((r / b) ^ 2 - 1) - Real.arccos (b / r)) :=
  ⟨calculate_involute_angleE_eq hb,
   fun h => by simp [calculate_involute_angle, h],
   fun h => by simp [calculate_involute_angle, not_le.mpr h]⟩

/-- Witness for C1 at `base_radius = 1`, `radius = 2`. -/
theorem involute_angle_spec_witness :
    calculate_involute_angleE 1 2 = some (calculate_involute_angle 1 2) ∧
    ((2 : ℝ) ≤ 1 → calculate_involute_angle 1 2 = 0) ∧
    ((1 : ℝ) < 2 → calculate_involute_angle 1 2 =
      Real.sqrt (((2 : ℝ) / 1) ^ 2 - 1) - Real.arccos (1 / 2)) :=
  involute_angle_spec 1 2 (by norm_num)

/-- **C6.** For `num_planets ≥ 1` and `planet_teeth ≥ 1`, planet `i` is
placed at angle `2π·i/num_planets` (consecutive angles differ by exactly
`2π/num_planets`), at `orbit_radius·(cos, sin)` of that angle with `z = 0`,
where `orbit_radius = ((sun_teeth+planet_teeth)·module)/2 + clearance`, and
its own-axis rotation is `π − angle·(1 + sun_teeth/planet_teeth)`. -/
theorem planet_placement_spec (sun planet num_planets : ℤ) (module clearance : ℝ)
    (i : ℕ) (hp : 1 ≤ planet) (hn : 1 ≤ num_planets) (hi : (i : ℤ) < num_planets) :
    planet_angle num_planets i = 2 * Real.pi * i / num_planets ∧
    planet_angle num_planets (i + 1) - planet_angle num_planets i =
      2 * Real.pi / num_planets ∧
    planet_location sun planet num_planets module clearance i =
      (orbit_radius sun planet module clearance * Real.cos (planet_angle num_planets i),
       orbit_radius sun planet module clearance * Real.sin (planet_angle num_planets i),
       0) ∧
    orbit_radius sun planet module clearance =
      ((sun : ℝ) + planet) * module / 2 + clearance ∧
    planet_rotation sun planet num_planets i =
      Real.pi - planet_angle num_planets i * (1 + (sun : ℝ) / planet) := by
  refine ⟨rfl, ?_, rfl, rfl, ?_⟩
  · have h0 : (num_planets : ℝ) ≠ 0 := Int.cast_ne_zero.mpr (by omega)
    unfold planet_angle
    push_cast
    field_simp
    ring
  · unfold planet_rotation rotation_ratio_val
    rw [if_pos (by omega : planet > 0)]

/-- Witness for C6 at the spec's scenario `sun = 32`, `planet = 16`,
`num_planets = 6`, `module = 1`, `clearance = 0`, `i = 0`. -/
theorem planet_placement_spec_witness :
    planet_angle 6 0 = 2 * Real.pi * (0 : ℕ) / 6 ∧
    planet_angle 6 (0 + 1) - planet_angle 6 0 = 2 * Real.pi / 6 ∧
    planet_location 32 16 6 1 0 0 =
      (orbit_radius 32 16 1 0 * Real.cos (planet_angle 6 0),
       orbit_radius 32 16 1 0 * Real.sin (planet_angle 6 0), 0) ∧
    orbit_radius 32 16 1 0 = ((32 : ℤ) + (16 : ℤ) : ℝ) * 1 / 2 + 0 ∧
    planet_rotation 32 16 6 0 =
      Real.pi - planet_angle 6 0 * (1 + ((32 : ℤ) : ℝ) / ((16 : ℤ) : ℝ)) :=
  planet_placement_spec 32 16 6 1 0 0 (by norm_num) (by norm_num) (by norm_num)

/-- **C7.** The ring tooth count is `sun_teeth + 2·planet_teeth`; the ring
gear request is internal with effective module
`module + (4·clearance)/ring_teeth`, while the sun and planet requests use
the plain module and are not internal. -/
theorem ring_layout_spec (sun planet : ℤ) (module clearance : ℝ)
    (hs : 1 ≤ sun) (hp : 1 ≤ planet) :
    ring_teeth sun planet = sun + 2 * planet ∧
    (ring_request sun planet module clearance).num_teeth = sun + 2 * planet ∧
    (ring_request sun planet module clearance).is_internal = true ∧
    (ring_request sun planet module clearance).module =
      module + 4 * clearance / (((sun : ℝ) + 2 * planet)) ∧
    (sun_request sun module).module = module ∧
    (sun_request sun module).is_internal = false ∧
    (planet_request planet module).module = module ∧
    (planet_request planet module).is_internal = false := by
  refine ⟨rfl, rfl, rfl, ?_, rfl, rfl, rfl, rfl⟩
  show effective_module_for_ring module clearance (ring_teeth sun planet) = _
  unfold effective_module_for_ring ring_teeth
  rw [if_pos (by omega : sun + 2 * planet > 0)]
  push_cast
  ring

/-- Witness for C7 at the spec's scenario `sun = 32`, `planet = 16`. -/
theorem ring_layout_spec_witness :
    ring_teeth 32 16 = 32 + 2 * 16 ∧
    (ring_request 32 16 1 0).num_teeth = 32 + 2 * 16 ∧
    (ring_request 32 16 1 0).is_internal = true ∧
    (ring_request 32 16 1 0).module = 1 + 4 * 0 / (((32 : ℤ) : ℝ) + 2 * ((16 : ℤ) : ℝ)) ∧
    (sun_request 32 1).module = 1 ∧
    (sun_request 32 1).is_internal = false ∧
    (planet_request 16 1).module = 1 ∧
    (planet_request 16 1).is_internal = false :=
  ring_layout_spec 32 16 1 0 (by norm_num) (by norm_num)

/-- **C2 counterexample.** The claimed outline point count
`tooth_count × (2×segments + 3) + 1` fails already at `tooth_count = 3`
(module 1, external, pressure angle 20°): the code emits `2×segments + 4`
points per tooth (root start, `segments + 1` ascending samples,
`segments + 1` descending samples, root end), giving 43 points, not 40. -/
theorem outline_count_claim_false :
    ¬ (build_gear_verts 3 1 false 20).length = 3 * (2 * num_segments + 3) + 1 := by
  rw [build_gear_verts_length 3 (by norm_num) 1 false 20]
  norm_num [num_segments]
  decide

/-- **C2 (amended).** For every `tooth_count ≥ 3` the outline contains
exactly `tooth_count × (2×segments + 4)` points (root start,
`segments + 1` ascending samples, `segments + 1` descending samples, root
end, per tooth) plus one closing point. -/
theorem outline_count_spec (n : ℤ) (hn : 3 ≤ n) (s : ℝ) (internal : Bool) (deg : ℝ) :
    (build_gear_verts n s internal deg).length = n.toNat * (2 * num_segments + 4) + 1 := by
  rw [build_gear_verts_length n (by omega) s internal deg]
  norm_num [num_segments]

/-- Witness for the amended C2 at `tooth_count = 3`. -/
theorem outline_count_spec_witness :
    (build_gear_verts 3 1 false 20).length = 3 * (2 * num_segments + 4) + 1 := by
  have h := outline_count_spec 3 (by norm_num) 1 false 20
  simpa [num_segments] using h

/-- **C3.** For every `tooth_count ≥ 3` (any scale, pressure angle,
`is_internal` flag) the outline is a nonempty closed loop: its first and
last points are identical. -/
theorem outline_closed_spec (n : ℤ) (hn : 3 ≤ n) (s : ℝ) (internal : Bool) (deg : ℝ) :
    build_gear_verts n s internal deg ≠ [] ∧
    (build_gear_verts n s internal deg).head? = (build_gear_verts n s internal deg).getLast? := by
  have hne : (if internal then (all_points n s deg).reverse else all_points n s deg) ≠ [] := by
    cases internal with
    | false => simpa using all_points_ne_nil n (by omega) s deg
    | true => simpa using all_points_ne_nil n (by omega) s deg
  unfold build_gear_verts
  refine ⟨?_, closeLoop_head?_eq_getLast? _ hne⟩
  intro h0
  have := closeLoop_length _ hne
  rw [h0] at this
  simp at this

/-- Witness for C3 at `tooth_count = 3`, module 1, external, 20°. -/
theorem outline_closed_spec_witness :
    build_gear_verts 3 1 false 20 ≠ [] ∧
    (build_gear_verts 3 1 false 20).head? = (build_gear_verts 3 1 false 20).getLast? :=
  outline_closed_spec 3 (by norm_num) 1 false 20

/-- **C5.** For identical tooth count, module and pressure angle, the
outline built with `is_internal = true` has signed polygon area equal to
the negation of the `is_internal = false` outline's signed area: reversing
the point order inverts the winding. -/
theorem winding_flip_spec (n : ℤ) (s deg : ℝ) :
    signedArea (build_gear_verts n s true deg) =
      -signedArea (build_gear_verts n s false deg) := by
  unfold signedArea build_gear_verts
  rw [if_pos rfl, if_neg (by simp), shoelaceSum_closeLoop_reverse]
  ring

/-- When `calculate_involute_angle` does not raise on an argument at or
above the base radius, the radius is at least the base radius in absolute
value: either the flat branch forces `r = b`, or the formula branch's
`sqrt` domain check gives `(r/b)^2 ≥ 1`. -/
theorem calculate_involute_angleE_some_sq {b r ia : ℝ}
    (h : calculate_involute_angleE b r = some ia) (hbr : b ≤ r) : b ^ 2 ≤ r ^ 2 := by
  unfold calculate_involute_angleE at h
  by_cases h1 : r ≤ b
  · rw [le_antisymm h1 hbr]
  · rw [if_neg h1] at h
    by_cases h2 : b = 0
    · rw [if_pos h2] at h; cases h
    · rw [if_neg h2] at h
      by_cases h3 : (r / b) ^ 2 - 1 < 0
      · rw [if_pos h3] at h; cases h
      · push_neg at h3
        have hb2 : 0 < b ^ 2 := pow_two_pos_of_ne_zero h2
        have h4 : 1 ≤ (r / b) ^ 2 := by linarith
        rw [div_pow] at h4
        exact (one_le_div hb2).mp h4

/-- Concrete evaluation: at base radius 1, side `+1`, offset 0, radius 1
the involute point is `(1, 0)` and no exception occurs. -/
theorem get_involute_pointE_one_eval :
    get_involute_pointE 1 1 0 1 = some ((1 : ℝ), (0 : ℝ)) := by
  unfold get_involute_pointE calculate_involute_angleE
  norm_num [polar, Real.cos_zero, Real.sin_zero]

/-- **C10.** Whenever the involute-point function returns a point (no
exception), the point lies at distance `max(radius, base_radius)` from the
origin, and in particular never strictly inside the base circle. -/
theorem involute_point_distance_spec (b side off r : ℝ) (hs : side = 1 ∨ side = -1)
    (p : ℝ × ℝ) (h : get_involute_pointE b side off r = some p) :
    p.1 ^ 2 + p.2 ^ 2 = max r b ^ 2 ∧ b ^ 2 ≤ p.1 ^ 2 + p.2 ^ 2 := by
  simp only [get_involute_pointE] at h
  rw [Option.map_eq_some'] at h
  obtain ⟨ia, hia, hp⟩ := h
  set rc := if r < b then b else r with hrc
  have hmax : rc = max r b := by
    rw [hrc]
    rcases lt_or_le r b with hlt | hle
    · rw [if_pos hlt, max_eq_right hlt.le]
    · rw [if_neg (not_lt.mpr hle), max_eq_left hle]
  have hbrc : b ≤ rc := by
    rw [hmax]
    exact le_max_right r b
  have hnorm : ∀ θ : ℝ, (polar rc θ).1 ^ 2 + (polar rc θ).2 ^ 2 = rc ^ 2 := by
    intro θ
    show (rc * Real.cos θ) ^ 2 + (rc * Real.sin θ) ^ 2 = rc ^ 2
    have h1 : (rc * Real.cos θ) ^ 2 + (rc * Real.sin θ) ^ 2
        = rc ^ 2 * (Real.sin θ ^ 2 + Real.cos θ ^ 2) := by ring
    rw [h1, Real.sin_sq_add_cos_sq, mul_one]
  subst hp
  refine ⟨?_, ?_⟩
  · rw [hnorm, hmax]
  · rw [hnorm]
    exact calculate_involute_angleE_some_sq hia hbrc

/-- Witness for C10 at base radius 1, side `+1`, offset 0, radius 1. -/
theorem involute_point_distance_spec_witness :
    (((1 : ℝ), (0 : ℝ)).1 ^ 2 + ((1 : ℝ), (0 : ℝ)).2 ^ 2 = max (1 : ℝ) 1 ^ 2) ∧
    ((1 : ℝ) ^ 2 ≤ ((1 : ℝ), (0 : ℝ)).1 ^ 2 + ((1 : ℝ), (0 : ℝ)).2 ^ 2) :=
  involute_point_distance_spec 1 1 0 1 (Or.inl rfl) (1, 0) get_involute_pointE_one_eval

/-- For a non-positive tooth count the replication loop contributes no
points, so whenever `build_gear_verts` returns at all it returns the empty
outline. -/
theorem build_gear_vertsE_nonpos {n : ℤ} {s : ℝ} {internal : Bool} {deg : ℝ}
    {l : List (ℝ × ℝ)} (hn : n ≤ 0)
    (h : build_gear_vertsE n s internal deg = some l) : l = [] := by
  simp only [build_gear_vertsE] at h
  cases htp : tooth_pointsE n s deg with
  | none =>
    rw [htp, Option.none_bind] at h
    cases h
  | some tp =>
    rw [htp, Option.some_bind] at h
    by_cases h0 : n = 0
    · rw [if_pos h0] at h
      cases h
    · rw [if_neg h0, Int.toNat_of_nonpos hn] at h
      cases internal <;> simp [closeLoop] at h <;> exact h

/-- With module `0` every derived radius is `0`, all involute evaluations
take the flat branch, and the single-tooth profile computation succeeds for
any nonzero tooth count. -/
theorem tooth_pointsE_zero_module_some (n : ℤ) (hn : n ≠ 0) (deg : ℝ) :
    ∃ tp, tooth_pointsE n 0 deg = some tp := by
  have hp : pitch_radius n 0 = 0 := by simp [pitch_radius]
  have hb : base_radius n 0 deg = 0 := by simp [base_radius, hp]
  have hr : root_radius n 0 = 0 := by simp [root_radius, hp]
  have ho : outer_radius n 0 = 0 := by simp [outer_radius, hp]
  have hh : half_tooth_thickness_angle n 0 = 0 := by simp [half_tooth_thickness_angle, hp]
  have hc : calculate_involute_angleE 0 0 = some 0 := by simp [calculate_involute_angleE]
  have hg : ∀ side iao : ℝ, ∀ i ∈ List.range (num_segments + 1),
      get_tooth_profile_pointE ((i : ℝ) / (num_segments : ℝ)) 0 0 0 iao side =
        some (polar 0 (side * (0 + iao))) := by
    intro side iao i _
    simp [get_tooth_profile_pointE, get_involute_pointE, calculate_involute_angleE]
  suffices h : (tooth_pointsE n 0 deg).isSome by
    obtain ⟨tp, htp⟩ := Option.isSome_iff_exists.mp h
    exact ⟨tp, htp⟩
  simp only [tooth_pointsE, hp, hb, hr, ho, hh, hc, Option.some_bind]
  rw [if_neg (lt_irrefl (0 : ℝ)), if_neg hn, if_neg (lt_irrefl (0 : ℝ)), if_neg hn]
  simp only [Option.some_bind]
  rw [mapME_eq_some_map _ _ _ (hg 1 _),
    mapME_eq_some_map _ _ _ (fun i hi => hg (-1) _ i (by simpa using hi))]
  simp only [Option.some_bind, Option.map_some', Option.isSome_some]

/-- Concrete run: `build_gear_verts(-1, 0, False, 20)` raises nothing and
returns the empty outline (the replication loop runs zero times). -/
theorem build_gear_vertsE_neg_one : build_gear_vertsE (-1) 0 false 20 = some [] := by
  obtain ⟨tp, htp⟩ := tooth_pointsE_zero_module_some (-1) (by norm_num) 20
  simp only [build_gear_vertsE, htp, Option.some_bind]
  rw [if_neg (by norm_num : ¬ ((-1 : ℤ) = 0))]
  rfl

/-- Concrete run: `create_gear_object` with tooth count `-1` and module `0`
reaches the emptiness check and cleanly returns no mesh. -/
theorem create_gear_objectE_neg_one : create_gear_objectE (-1) 0 false 20 = some none := by
  simp only [create_gear_objectE, build_gear_vertsE_neg_one, Option.some_bind]
  rfl

/-- Concrete run: `build_gear_verts(0, 1, False, 20)` raises.  With zero
teeth the base radius is `0` while the sampled tooth-face radius at
fraction `1/5` is `1/5 > 0`, so `radius / base_radius` in
`calculate_involute_angle` is a division by zero (`ZeroDivisionError`),
uncaught because the builder is called outside `create_gear_object`'s
`try` block. -/
theorem build_gear_vertsE_zero : build_gear_vertsE 0 1 false 20 = none := by
  have hp : pitch_radius 0 1 = 0 := by simp [pitch_radius]
  have hb : base_radius 0 1 20 = 0 := by simp [base_radius, hp]
  have hr : root_radius 0 1 = -1.25 := by simp [root_radius, hp]
  have ho : outer_radius 0 1 = 1 := by simp [outer_radius, hp]
  have hh : half_tooth_thickness_angle 0 1 = 0 := by simp [half_tooth_thickness_angle, hp]
  have hc : calculate_involute_angleE 0 0 = some 0 := by simp [calculate_involute_angleE]
  have hnone : ∀ iao : ℝ,
      get_tooth_profile_pointE (((1 : ℕ) : ℝ) / (num_segments : ℝ)) (-1.25) 0 1 iao 1 = none := by
    intro iao
    have hmax : max (0 : ℝ) (-1.25) = 0 := max_eq_left (by norm_num)
    have hcur : (1 - ((1 : ℕ) : ℝ) / (num_segments : ℝ)) * max (0 : ℝ) (-1.25)
        + ((1 : ℕ) : ℝ) / (num_segments : ℝ) * 1 = 1 / 5 := by
      rw [hmax]
      norm_num [num_segments]
    simp only [get_tooth_profile_pointE, get_involute_pointE, hcur]
    rw [if_neg (by norm_num : ¬ ((1 : ℝ) / 5 < 0))]
    have h0 : calculate_involute_angleE 0 (1 / 5) = none := by
      rw [calculate_involute_angleE, if_neg (by norm_num : ¬ ((1 : ℝ) / 5 ≤ 0)), if_pos rfl]
    rw [h0, Option.map_none']
  have hasc : mapME (fun (i : ℕ) =>
      get_tooth_profile_pointE ((i : ℝ) / (num_segments : ℝ)) (-1.25) 0 1
        (-0 - 0 / 2) 1) (List.range (num_segments + 1)) = none :=
    mapME_eq_none _ (by simp [num_segments]) (hnone _)
  simp only [build_gear_vertsE, tooth_pointsE, hp, hb, hr, ho, hh, hc, Option.some_bind]
  rw [if_pos (by norm_num : (-1.25 : ℝ) < 0), if_pos (by norm_num : (-1.25 : ℝ) < 0)]
  simp only [Option.some_bind]
  rw [hasc]
  simp only [Option.none_bind]

/-- Concrete run: the exception from `build_gear_verts(0, 1, False, 20)`
escapes `create_gear_object` (no clean no-mesh result). -/
theorem create_gear_objectE_zero : create_gear_objectE 0 1 false 20 = none := by
  simp only [create_gear_objectE, build_gear_vertsE_zero, Option.none_bind]

/-- **C4 counterexample.** At `tooth_count = 0` (module 1, external, 20°)
gear generation is not rejected before outline construction: outline
construction is entered and dies with an uncaught `ZeroDivisionError`
(modelled by the outer `none`), rather than returning the clean no-mesh
result `some none` the claim describes. -/
theorem reject_claim_false :
    create_gear_objectE 0 1 false 20 = none ∧
    ¬ create_gear_objectE 0 1 false 20 = some none := by
  have h : create_gear_objectE 0 1 false 20 = none := by
    simp only [create_gear_objectE, build_gear_vertsE_zero, Option.none_bind]
  exact ⟨h, by rw [h]; intro h2; cases h2⟩

/-- **C4 (amended).** For `tooth_count ≤ 0`, per-gear creation never yields
a mesh: whenever `create_gear_object` returns at all (no exception), it
returns no mesh, because the outline's replication loop ran zero times and
the empty outline fails the emptiness check.  (There is no up-front
validation; at `tooth_count = 0`, and for some negative counts with a
positive module, outline construction instead raises an uncaught math
error.) -/
theorem reject_nonpositive_spec (n : ℤ) (s : ℝ) (internal : Bool) (deg : ℝ)
    (v : Option (List (ℝ × ℝ))) (hn : n ≤ 0)
    (h : create_gear_objectE n s internal deg = some v) : v = none := by
  simp only [create_gear_objectE] at h
  cases hbuild : build_gear_vertsE n s internal deg with
  | none =>
    rw [hbuild, Option.none_bind] at h
    cases h
  | some l =>
    rw [hbuild, Option.some_bind] at h
    have hl : l = [] := build_gear_vertsE_nonpos hn hbuild
    subst hl
    simp only [List.isEmpty_nil, if_true, Option.some.injEq] at h
    exact h.symm

/-- Witness for the amended C4 at tooth count `-1`, module `0`. -/
theorem reject_nonpositive_spec_witness :
    ((-1 : ℤ) ≤ 0) ∧ (none : Option (List (ℝ × ℝ))) = none :=
  ⟨by norm_num,
   reject_nonpositive_spec (-1) 0 false 20 none (by norm_num) create_gear_objectE_neg_one⟩

/-- **C9 counterexample.** At `num_teeth = -1` with module 1 and pressure
angle 20° the outline builder does not return the empty list: building the
single-tooth profile (which happens before the zero-iteration replication
loop) evaluates `calculate_involute_angle` at radius `-2c/5 + 1/10` over
base radius `-c/2` (where `c = cos 20°`), whose `sqrt` argument
`(radius/base)^2 - 1` is negative, so Python raises an uncaught
`ValueError` (modelled by `none`). -/
theorem negative_outline_claim_false : build_gear_vertsE (-1) 1 false 20 = none := by
  set c := Real.cos (radians 20) with hcdef
  have hpi := Real.pi_pos
  have hth0 : 0 ≤ radians 20 := by rw [radians]; positivity
  have hthA : radians 20 ≤ Real.pi / 3 := by rw [radians]; linarith
  have hthB : radians 20 < Real.pi / 2 := by rw [radians]; linarith
  have hthC : -(Real.pi / 2) < radians 20 := by rw [radians]; linarith
  have hc1 : 0 < c := Real.cos_pos_of_mem_Ioo ⟨hthC, hthB⟩
  have hc2 : c ≤ 1 := Real.cos_le_one _
  have hc3 : 1 / 2 ≤ c := by
    have h := Real.cos_le_cos_of_nonneg_of_le_pi hth0 (by linarith : Real.pi / 3 ≤ Real.pi) hthA
    rwa [Real.cos_pi_div_three] at h
  have hp : pitch_radius (-1) 1 = -(1 / 2) := by rw [pitch_radius]; push_cast; norm_num
  have hb : base_radius (-1) 1 20 = -(1 / 2) * c := by rw [base_radius, hp, hcdef]
  have hr : root_radius (-1) 1 = -(7 / 4) := by rw [root_radius, hp]; norm_num
  have ho : outer_radius (-1) 1 = 1 / 2 := by rw [outer_radius, hp]; norm_num
  have hh : half_tooth_thickness_angle (-1) 1 = 0 := by
    rw [half_tooth_thickness_angle, hp, if_neg (by norm_num)]
  have hcalc0 : calculate_involute_angleE (-(1 / 2) * c) (-(1 / 2)) = some 0 := by
    rw [calculate_involute_angleE, if_pos (by nlinarith : (-(1 / 2) : ℝ) ≤ -(1 / 2) * c)]
  have hroot_lt : (-(7 / 4) : ℝ) < -(1 / 2) * c := by nlinarith
  have hnone : ∀ iao : ℝ,
      get_tooth_profile_pointE (((1 : ℕ) : ℝ) / (num_segments : ℝ)) (-(7 / 4)) (-(1 / 2) * c)
        (1 / 2) iao 1 = none := by
    intro iao
    have hmax : max (-(1 / 2) * c) (-(7 / 4) : ℝ) = -(1 / 2) * c := max_eq_left hroot_lt.le
    have hcur : (1 - ((1 : ℕ) : ℝ) / (num_segments : ℝ)) * max (-(1 / 2) * c) (-(7 / 4) : ℝ)
        + ((1 : ℕ) : ℝ) / (num_segments : ℝ) * (1 / 2) = -(2 / 5) * c + 1 / 10 := by
      rw [hmax]
      norm_num [num_segments]
      ring
    have hsq : ((-(2 / 5) * c + 1 / 10) / (-(1 / 2) * c)) ^ 2 - 1 < 0 := by
      have hb2 : (0 : ℝ) < (-(1 / 2) * c) ^ 2 := by nlinarith
      rw [div_pow]
      have h1 : (-(2 / 5) * c + 1 / 10) ^ 2 / (-(1 / 2) * c) ^ 2 < 1 := by
        rw [div_lt_one hb2]
        nlinarith [sq_nonneg (c - 1 / 2)]
      linarith
    have hcE : calculate_involute_angleE (-(1 / 2) * c) (-(2 / 5) * c + 1 / 10) = none := by
      rw [calculate_involute_angleE,
        if_neg (by nlinarith : ¬ ((-(2 / 5) * c + 1 / 10 : ℝ) ≤ -(1 / 2) * c)),
        if_neg (by intro h0; nlinarith : ¬ ((-(1 / 2) * c : ℝ) = 0)),
        if_pos hsq]
    simp only [get_tooth_profile_pointE, get_involute_pointE, hcur]
    rw [if_neg (by nlinarith : ¬ ((-(2 / 5) * c + 1 / 10 : ℝ) < -(1 / 2) * c)), hcE,
      Option.map_none']
  simp only [build_gear_vertsE, tooth_pointsE, hp, hb, hr, ho, hh, hcalc0, Option.some_bind]
  rw [if_pos hroot_lt, if_pos hroot_lt]
  simp only [Option.some_bind]
  rw [mapME_eq_none _ (by simp [num_segments] : (1 : ℕ) ∈ List.range (num_segments + 1))
    (hnone _)]
  simp only [Option.none_bind]

/-- **C9 (amended).** For every strictly negative `num_teeth`, the
tooth-replication loop executes zero times and the closing-point append is
skipped, so whenever the outline builder returns at all (the single-tooth
profile computation raised no math error) it returns the empty list. -/
theorem negative_outline_spec (n : ℤ) (s : ℝ) (internal : Bool) (deg : ℝ)
    (l : List (ℝ × ℝ)) (hn : n < 0)
    (h : build_gear_vertsE n s internal deg = some l) : l = [] :=
  build_gear_vertsE_nonpos hn.le h

/-- Witness for the amended C9 at tooth count `-1`, module `0`. -/
theorem negative_outline_spec_witness :
    build_gear_vertsE (-1) 0 false 20 = some [] ∧ ([] : List (ℝ × ℝ)) = [] :=
  ⟨build_gear_vertsE_neg_one,
   negative_outline_spec (-1) 0 false 20 [] (by norm_num) build_gear_vertsE_neg_one⟩

/-- `u ↦ u - arctan u` is strictly increasing on `[0, ∞)`: its derivative
`1 - 1/(1+u²)` is positive for `u > 0`. -/
theorem sub_arctan_strictMonoOn : StrictMonoOn (fun u : ℝ => u - Real.arctan u) (Set.Ici 0) := by
  apply strictMonoOn_of_deriv_pos (convex_Ici 0)
  · exact (continuous_id.sub Real.continuous_arctan).continuousOn
  · intro x hx
    rw [interior_Ici] at hx
    have hd : HasDerivAt (fun u : ℝ => u - Real.arctan u) (1 - 1 / (1 + x ^ 2)) x :=
      (hasDerivAt_id x).sub (Real.hasDerivAt_arctan x)
    rw [hd.deriv]
    have hx2 : 0 < x ^ 2 := pow_two_pos_of_ne_zero (ne_of_gt hx)
    have hlt : 1 / (1 + x ^ 2) < 1 := by
      rw [div_lt_one (by positivity)]
      linarith
    linarith

/-- Above the base circle the involute angle is `t - arctan t` where
`t = sqrt((r/b)² - 1)`: writing `φ = arccos(b/r) ∈ (0, π/2)` one has
`tan φ = t`, so `arccos(b/r) = arctan t`. -/
theorem involute_angle_eq_sub_arctan {b r : ℝ} (hb : 0 < b) (hr : b < r) :
    calculate_involute_angle b r =
      Real.sqrt ((r / b) ^ 2 - 1) - Real.arctan (Real.sqrt ((r / b) ^ 2 - 1)) := by
  have hr0 : 0 < r := hb.trans hr
  have hx : 0 < b / r := div_pos hb hr0
  have hx1 : b / r < 1 := (div_lt_one hr0).mpr hr
  have h1x : (0 : ℝ) ≤ 1 - (b / r) ^ 2 := by nlinarith
  have harc : Real.arccos (b / r) = Real.arctan (Real.sqrt ((r / b) ^ 2 - 1)) := by
    have hphi0 : 0 < Real.arccos (b / r) := Real.arccos_pos.mpr hx1
    have hphi2 : Real.arccos (b / r) < Real.pi / 2 := Real.arccos_lt_pi_div_two.mpr hx
    have htan : Real.tan (Real.arccos (b / r)) = Real.sqrt ((r / b) ^ 2 - 1) := by
      rw [Real.tan_eq_sin_div_cos, Real.sin_arccos,
        Real.cos_arccos (by linarith : -1 ≤ b / r) hx1.le,
        show Real.sqrt (1 - (b / r) ^ 2) / (b / r)
            = Real.sqrt (1 - (b / r) ^ 2) / Real.sqrt ((b / r) ^ 2) by
          rw [Real.sqrt_sq hx.le],
        ← Real.sqrt_div h1x]
      congr 1
      field_simp
    rw [← htan, Real.arctan_tan (by linarith) hphi2]
  rw [calculate_involute_angle, if_neg (not_le.mpr hr), harc]

/-- **C8.** For every `base_radius > 0` the involute-angle function is
strictly increasing in the radius on the domain above the base circle. -/
theorem involute_angle_strict_mono (b r1 r2 : ℝ) (hb : 0 < b) (h1 : b < r1) (h2 : r1 < r2) :
    calculate_involute_angle b r1 < calculate_involute_angle b r2 := by
  have ht : Real.sqrt ((r1 / b) ^ 2 - 1) < Real.sqrt ((r2 / b) ^ 2 - 1) := by
    have ha : 1 < r1 / b := (one_lt_div hb).mpr h1
    apply Real.sqrt_lt_sqrt (by nlinarith)
    rw [div_pow, div_pow]
    have hrr : r1 ^ 2 < r2 ^ 2 := by nlinarith
    gcongr
  rw [involute_angle_eq_sub_arctan hb h1, involute_angle_eq_sub_arctan hb (h1.trans h2)]
  exact sub_arctan_strictMonoOn (Set.mem_Ici.mpr (Real.sqrt_nonneg _))
    (Set.mem_Ici.mpr (Real.sqrt_nonneg _)) ht

/-- Witness for C8 at `base_radius = 1`, radii `2 < 3`. -/
theorem involute_angle_strict_mono_witness :
    calculate_involute_angle 1 2 < calculate_involute_angle 1 3 :=
  involute_angle_strict_mono 1 2 3 (by norm_num) (by norm_num) (by norm_num)

end PlanetaryGear
